import Mathlib

/-!
Verification of the soundcloud-downloader repository's core logic.

The definitions below are a shallow embedding of the TypeScript sources
`src/utils/security.ts` and `src/soundcloud-downloader.tsx`.  Pure functions
are translated to Lean functions; JavaScript numbers that only ever hold
integers are modelled as Nat/Int, decimal percentages as Rat; the global
operation registry is modelled as explicit state passing; fallible code
returns Except.  Platform APIs used by the source (the WHATWG URL parser,
Node's path.resolve, JS String.prototype.trim) are modelled explicitly where
the source relies on them.
-/

namespace SCDL

/-! ## Character classes used by the source's regexes and string helpers -/

/-- JS regex digit class: 0-9 (used by the \d class in the source regexes). -/
def isJsDigit (c : Char) : Bool := '0' ≤ c && c ≤ '9'

/-- JS whitespace (String.prototype.trim and the regex \s class):
space, tab, LF, VT, FF, CR, NBSP, BOM, and line/paragraph separators. -/
def isJsWhitespace (c : Char) : Bool :=
  c = ' ' || c = '\t' || c = '\n' || c = '\x0b' || c = '\x0c' || c = '\r' ||
  c.toNat = 0xa0 || c.toNat = 0x2028 || c.toNat = 0x2029 || c.toNat = 0xfeff

/-- JS regex word class \w : A-Za-z0-9_. -/
def isWordChar (c : Char) : Bool :=
  ('a' ≤ c && c ≤ 'z') || ('A' ≤ c && c ≤ 'Z') || isJsDigit c || c = '_'

/-- The class [\x00-\x1f\x7f-\x9f] removed by validateCommandArgs'
control-character strip. -/
def isCtrlChar (c : Char) : Bool :=
  c.toNat ≤ 0x1f || (0x7f ≤ c.toNat && c.toNat ≤ 0x9f)

/-- The character class of sanitizeUrl's regex [;&|`$(){}[\]\\]. -/
def isShellMeta (c : Char) : Bool :=
  c = ';' || c = '&' || c = '|' || c = '\x60' || c = '$' || c = '(' || c = ')' ||
  c = '\x7b' || c = '\x7d' || c = '[' || c = ']' || c = '\\'

/-- The class [\d.] from the progress regex (digits and dot). -/
def isNumDot (c : Char) : Bool := isJsDigit c || c = '.'

/-! ## Generic string helpers -/

/-- Value of a digit character. -/
def digitVal (c : Char) : Nat := c.toNat - '0'.toNat

/-- parseInt on a nonempty run of decimal digits. -/
def natOfDigits (cs : List Char) : Nat :=
  cs.foldl (fun acc c => acc * 10 + digitVal c) 0

/-- parseFloat on a string of shape digits, dot, digits (the only shape the
percentage capture group can produce); exact decimal value as a rational. -/
def ratOfDecimal (ip fp : List Char) : Rat :=
  (natOfDigits ip : Rat) + (natOfDigits fp : Rat) / ((10 : Rat) ^ fp.length)

/-- JS String.prototype.trim: drop JS whitespace from both ends. -/
def jsTrim (s : String) : String :=
  String.mk (((s.toList.dropWhile isJsWhitespace).reverse.dropWhile isJsWhitespace).reverse)

/-- Does the pattern occur as a contiguous sublist anywhere in the list? -/
def hasSubList (pat : List Char) : List Char → Bool
  | [] => pat.isEmpty
  | c :: rest => List.isPrefixOf pat (c :: rest) || hasSubList pat rest

/-- Substring containment test (JS String.prototype.includes / an unanchored
regex made of literal characters). -/
def containsSub (s pat : String) : Bool :=
  hasSubList pat.toList s.toList

/-- Kernel-reducible model of splitting a string on a single-character
separator (JS String.prototype.split with a one-character string, and
String.splitOn as used on "/"). -/
def jsSplitOn (sep : Char) : List Char → List (List Char)
  | [] => [[]]
  | c :: rest =>
    let r := jsSplitOn sep rest
    if c = sep then [] :: r
    else
      match r with
      | [] => [[c]]
      | g :: gs => (c :: g) :: gs

/-- Split a string on a separator character into strings. -/
def splitStr (sep : Char) (s : String) : List String :=
  (jsSplitOn sep s.toList).map String.mk

/-- Kernel-reducible model of String.startsWith / JS startsWith. -/
def strStartsWith (s pre : String) : Bool :=
  List.isPrefixOf pre.toList s.toList

/-- Join strings with a separator character between them. -/
def strJoin (sep : Char) : List String → String
  | [] => ""
  | [a] => a
  | a :: rest => a ++ String.mk [sep] ++ strJoin sep rest

/-! ## security.ts: sanitizeUrl -/

/-- sanitizeUrl from security.ts: url.replace with the global regex
[;&|`$(){}[\]\\] and the empty string, i.e. remove every occurrence of the
listed shell metacharacters. -/
def sanitizeUrl (url : String) : String :=
  String.mk (url.toList.filter (fun c => !isShellMeta c))

/-! ## security.ts: validateCommandArgs -/

/-- Test of the regex pattern for backtick command substitution.  The source
pattern requires a backtick, then any number of non-backticks, then a second
backtick, so it holds exactly when the string contains at least two
backticks. -/
def hasBacktickPair (s : String) : Bool :=
  2 ≤ (s.toList.filter (fun c => c = '\x60')).length

/-- The dangerousPatterns check of validateCommandArgs: command substitution,
backtick substitution, command chaining, command separator, redirection. -/
def hasDangerousPattern (s : String) : Bool :=
  containsSub s "$(" || hasBacktickPair s || containsSub s "&&" ||
  containsSub s "||" || containsSub s ";" || containsSub s ">" || containsSub s "<"

/-- Remove the control characters [\x00-\x1f\x7f-\x9f]. -/
def stripControlChars (s : String) : String :=
  String.mk (s.toList.filter (fun c => !isCtrlChar c))

/-- The per-argument sanitization of validateCommandArgs: strip control
characters, then trim. -/
def sanitizeArg (s : String) : String :=
  jsTrim (stripControlChars s)

/-- Result record of validateCommandArgs. -/
structure ArgsValidation where
  isValid : Bool
  errors : Option (List String)
  sanitizedArgs : Option (List String)
deriving DecidableEq, Repr

/-- The per-argument loop of validateCommandArgs, accumulating the errors list
and the sanitizedArgs list in input order.  The null/undefined check of the
source cannot fire for Lean strings and is omitted. -/
def validateArgsLoop : List String → List String × List String
  | [] => ([], [])
  | a :: rest =>
    let r := validateArgsLoop rest
    if 2000 < a.length then
      (("Argument too long: " ++ toString a.length ++ " characters") :: r.1, r.2)
    else if hasDangerousPattern a then
      (("Potentially dangerous pattern in argument: " ++ a) :: r.1, r.2)
    else
      let s := sanitizeArg a
      if s.length = 0 ∧ 0 < a.length then
        ("Argument became empty after sanitization" :: r.1, r.2)
      else
        (r.1, s :: r.2)

/-- validateCommandArgs from security.ts: isValid iff no errors accumulated;
errors only present when nonempty; sanitizedArgs only present when there is
no error at all. -/
def validateCommandArgs (args : List String) : ArgsValidation :=
  let r := validateArgsLoop args
  { isValid := r.1.isEmpty
    errors := if r.1.isEmpty then none else some r.1
    sanitizedArgs := if r.1.isEmpty then some r.2 else none }

/-- The condition under which validateCommandArgs records an error for one
argument: longer than 2000 characters, matching a dangerous pattern, or a
nonempty input emptied by the control-character strip and trim. -/
def rejectsArg (a : String) : Bool :=
  if 2000 < a.length then true
  else if hasDangerousPattern a then true
  else if (sanitizeArg a).length = 0 ∧ 0 < a.length then true
  else false

/-! ## Model of the WHATWG URL parser (the platform's new URL constructor)

Only the pieces the source reads are modelled: scheme, lowercased hostname,
and pathname (defaulting to "/").  Percent-decoding and dot-segment
normalization of the path are not modelled; no input the source or the
claims exercise relies on them. -/

structure URLParts where
  scheme : String
  hostname : String
  pathname : String
deriving DecidableEq, Repr

/-- Model of new URL(s) for hierarchical scheme://host/path URLs: returns
none (the constructor throws) when there is no alphabetic scheme followed by
"://" or the host is empty; otherwise lowercases the hostname, strips
userinfo and port, and defaults the pathname to "/". -/
def parseURL (s : String) : Option URLParts :=
  let cs := s.toList
  let scheme := cs.takeWhile (fun c => c.isAlpha)
  let rest := cs.drop scheme.length
  if scheme.isEmpty then none
  else
    match rest with
    | ':' :: '/' :: '/' :: rest2 =>
      let authority := rest2.takeWhile (fun c => !(c = '/' || c = '?' || c = '#'))
      let afterAuth := rest2.dropWhile (fun c => !(c = '/' || c = '?' || c = '#'))
      let hostport := (authority.reverse.takeWhile (fun c => c ≠ '@')).reverse
      let host := hostport.takeWhile (fun c => c ≠ ':')
      if host.isEmpty then none
      else
        let pathname := afterAuth.takeWhile (fun c => !(c = '?' || c = '#'))
        some { scheme := String.mk (scheme.map Char.toLower)
               hostname := String.mk (host.map Char.toLower)
               pathname := if pathname.isEmpty then "/" else String.mk pathname }
    | _ => none

/-! ## soundcloud-downloader.tsx and security.ts: URL checks -/

/-- isValidSoundCloudUrl from soundcloud-downloader.tsx (the check run at
download submission): parse the URL and accept only the hostnames
soundcloud.com and www.soundcloud.com. -/
def isValidSoundCloudUrl (url : String) : Bool :=
  match parseURL url with
  | some p => p.hostname = "soundcloud.com" || p.hostname = "www.soundcloud.com"
  | none => false

/-- The validDomains allow-list of SoundCloudUrlSchema in security.ts. -/
def validDomains : List String :=
  ["soundcloud.com", "www.soundcloud.com", "m.soundcloud.com",
   "mobile.soundcloud.com", "on.soundcloud.com"]

/-- The refinement check of SoundCloudUrlSchema in security.ts: the string
parses as a URL and its hostname is in the validDomains allow-list (the
schema's .url() well-formedness check is the same parse). -/
def soundCloudUrlSchemaCheck (url : String) : Bool :=
  match parseURL url with
  | some p => validDomains.contains p.hostname
  | none => false

/-- detectSoundCloudUrlType from security.ts, including the unreachable
inner single-segment branch of the source.  Returns (type, isValid). -/
def detectSoundCloudUrlType (url : String) : String × Bool :=
  match parseURL url with
  | none => ("invalid", false)
  | some parsed =>
    let pathname := parsed.pathname
    if parsed.hostname = "on.soundcloud.com" then ("shortened", true)
    else if strStartsWith pathname "/discover" || strStartsWith pathname "/explore" then
      ("discover", false)
    else if strStartsWith pathname "/search" then ("search", false)
    else if containsSub pathname "/sets/" then ("playlist", true)
    else if containsSub pathname "/albums/" then ("album", true)
    else
      let pathSegments := (splitStr '/' pathname).filter (fun seg => 0 < seg.length)
      if 2 ≤ pathSegments.length then
        if pathSegments.length = 1 then ("user", false) else ("track", true)
      else if pathSegments.length = 1 then ("user", false)
      else ("unknown", false)

/-- isPlaylistUrl from soundcloud-downloader.tsx. -/
def isPlaylistUrl (url : String) : Bool :=
  containsSub url "/sets/" || containsSub url "/albums/"

/-! ## Model of Node's path.resolve and security.ts path validation -/

/-- Collapse empty, ".", and ".." segments of an absolute path, ".." popping
the previous segment (and being dropped at the root). -/
def normalizeSegsAux : List String → List String → List String
  | [], acc => acc.reverse
  | s :: rest, acc =>
    if s = "" ∨ s = "." then normalizeSegsAux rest acc
    else if s = ".." then normalizeSegsAux rest (acc.drop 1)
    else normalizeSegsAux rest (s :: acc)

/-- Model of path.resolve(p) on POSIX with working directory cwd: absolute
paths are normalized in place, relative paths are joined onto cwd first. -/
def pathResolve (cwd p : String) : String :=
  let full := if strStartsWith p "/" then p else cwd ++ "/" ++ p
  "/" ++ strJoin '/' (normalizeSegsAux (splitStr '/' full) [])

/-- The safePaths list of OutputPathSchema: the home directory and its
Downloads, Documents, Desktop and Music subdirectories (path.join modelled
as "/"-concatenation onto a home directory without trailing slash). -/
def safePaths (homeDir : String) : List String :=
  [homeDir, homeDir ++ "/Downloads", homeDir ++ "/Documents",
   homeDir ++ "/Desktop", homeDir ++ "/Music"]

/-- The OutputPathSchema check of security.ts: nonempty, and the resolved
path starts with one of the safe paths. -/
def outputPathSchemaCheck (homeDir cwd p : String) : Bool :=
  1 ≤ p.length && (safePaths homeDir).any (fun sp => strStartsWith (pathResolve cwd p) sp)

/-- validateAndSanitizePath from security.ts: parse with OutputPathSchema,
resolve, additionally require the resolved path to start with the home
directory, and wrap any failure message in an Invalid-path error. -/
def validateAndSanitizePath (homeDir cwd p : String) : Except String String :=
  if p.length = 0 then Except.error "Invalid path: Path cannot be empty"
  else if !((safePaths homeDir).any (fun sp => strStartsWith (pathResolve cwd p) sp)) then
    Except.error "Invalid path: Path must be within safe directories"
  else
    let resolved := pathResolve cwd p
    if !(strStartsWith resolved homeDir) then
      Except.error "Invalid path: Path must be within user directory"
    else Except.ok resolved

/-! ## soundcloud-downloader.tsx: command construction and the submission flow -/

/-- The three QUALITY_PRESETS argument lists. -/
inductive QualityKey | high | medium | low
deriving DecidableEq, Repr

/-- args field of QUALITY_PRESETS for each key. -/
def qualityPresetArgs : QualityKey → List String
  | QualityKey.high => ["-f", "best[abr<=192]/best", "--audio-quality", "0", "--audio-format", "mp3"]
  | QualityKey.medium => ["-f", "best[abr<=128]/best", "--audio-quality", "5", "--audio-format", "mp3"]
  | QualityKey.low => ["-f", "best[abr<=96]/best", "--audio-quality", "9", "--audio-format", "mp3"]

/-- The argument vector built by executeBackgroundDownload before the final
validateCommandArgs check and the spawn call. -/
def buildDownloadArgs (safePath sanitizedUrl : String) (isPlaylist embedThumbnail : Bool)
    (quality : QualityKey) : List String :=
  ["--extract-flat", "false", "-o", safePath ++ "/%(title)s.%(ext)s"]
  ++ qualityPresetArgs quality
  ++ ["--add-metadata"]
  ++ (if isPlaylist then ["--parse-metadata", "playlist_title:%(album)s"]
      else ["--parse-metadata", "title:%(album)s"])
  ++ ["--postprocessor-args", "ffmpeg:-metadata genre=\"Electronic\""]
  ++ (if embedThumbnail then ["--embed-thumbnail", "--no-write-thumbnail"] else [])
  ++ ["--no-write-info-json", "--no-write-description", "--no-write-annotations",
      "--no-write-comments", "--embed-subs", "--no-write-subs",
      "--newline", "--no-warnings", "--ignore-errors", sanitizedUrl]

/-- The validation pipeline of handleDownload followed by
executeBackgroundDownload up to the spawn call, with the default settings
(quality high, embedThumbnail true): returns true exactly when a child
process is spawned for the request.  Empty sanitized strings are rejected
because the source tests them with JS truthiness. -/
def handleDownloadSpawns (url downloadPath : String) : Bool :=
  if (jsTrim url).length = 0 then false
  else if !(isValidSoundCloudUrl url) then false
  else
    let urlValidation := validateCommandArgs [url]
    match urlValidation.isValid, urlValidation.sanitizedArgs with
    | true, some (sanitizedUrl :: _) =>
      if sanitizedUrl.length = 0 then false
      else
        let isPlaylist := isPlaylistUrl sanitizedUrl
        let pathValidation := validateCommandArgs [downloadPath]
        match pathValidation.isValid, pathValidation.sanitizedArgs with
        | true, some (safePath :: _) =>
          if safePath.length = 0 then false
          else
            let args := buildDownloadArgs safePath sanitizedUrl isPlaylist true QualityKey.high
            (validateCommandArgs args).isValid
        | _, _ => false
    | _, _ => false

/-! ## soundcloud-downloader.tsx: operation state model -/

/-- TrackInfo, restricted to the fields the modelled flows touch. -/
structure TrackInfo where
  title : Option String := none
  uploader : Option String := none
deriving DecidableEq, Repr

/-- DownloadProgress: percentage is a JS number (only ever a parsed decimal
or the literal 100, modelled exactly as a rational); the rest are strings or
integer counters. -/
structure DownloadProgress where
  percentage : Option Rat := none
  speed : Option String := none
  eta : Option String := none
  downloaded : Option String := none
  total : Option String := none
  currentTrack : Option Nat := none
  totalTracks : Option Nat := none
  trackTitle : Option String := none
  elapsedTime : Option String := none
deriving DecidableEq, Repr

/-- OperationState from soundcloud-downloader.tsx. -/
structure OperationState where
  isActive : Bool
  progress : DownloadProgress
  trackInfo : Option TrackInfo
  error : Option String
  isCompleted : Bool
  downloadedFiles : List String
deriving DecidableEq, Repr

/-- The default zero-value state used by updateOperationState when an id has
no stored state yet. -/
def defaultOperationState : OperationState :=
  { isActive := false, progress := {}, trackInfo := none, error := none,
    isCompleted := false, downloadedFiles := [] }

/-- A Partial of OperationState: each field optionally present, exactly the
top-level keys a JS partial-update object can carry. -/
structure PartialOperationState where
  isActive : Option Bool := none
  progress : Option DownloadProgress := none
  trackInfo : Option (Option TrackInfo) := none
  error : Option (Option String) := none
  isCompleted : Option Bool := none
  downloadedFiles : Option (List String) := none
deriving DecidableEq, Repr

/-- The shallow merge of a partial update onto a full state: JS spread
of currentState then updates, per top-level key. -/
def applyPartial (st : OperationState) (u : PartialOperationState) : OperationState :=
  { isActive := u.isActive.getD st.isActive
    progress := u.progress.getD st.progress
    trackInfo := u.trackInfo.getD st.trackInfo
    error := u.error.getD st.error
    isCompleted := u.isCompleted.getD st.isCompleted
    downloadedFiles := u.downloadedFiles.getD st.downloadedFiles }

/-- Right-biased choice between optional fields (the key present in the
second object wins, as in a JS object spread of p1 then p2). -/
def overrideOpt {α : Type} (a b : Option α) : Option α :=
  match b with
  | some v => some v
  | none => a

/-- The caller-side merge of two partial updates (JS spread of p1 then p2):
per key, p2's value when present, else p1's. -/
def mergePartial (p1 p2 : PartialOperationState) : PartialOperationState :=
  { isActive := overrideOpt p1.isActive p2.isActive
    progress := overrideOpt p1.progress p2.progress
    trackInfo := overrideOpt p1.trackInfo p2.trackInfo
    error := overrideOpt p1.error p2.error
    isCompleted := overrideOpt p1.isCompleted p2.isCompleted
    downloadedFiles := overrideOpt p1.downloadedFiles p2.downloadedFiles }

/-- Two partial updates touch disjoint sets of top-level keys. -/
def disjointKeys (p1 p2 : PartialOperationState) : Bool :=
  !(p1.isActive.isSome && p2.isActive.isSome) &&
  !(p1.progress.isSome && p2.progress.isSome) &&
  !(p1.trackInfo.isSome && p2.trackInfo.isSome) &&
  !(p1.error.isSome && p2.error.isSome) &&
  !(p1.isCompleted.isSome && p2.isCompleted.isSome) &&
  !(p1.downloadedFiles.isSome && p2.downloadedFiles.isSome)

/-! ## soundcloud-downloader.tsx: the global registry (globalOperations and
globalListeners), modelled as explicitly passed association-list maps with
callbacks named by numbers. -/

structure Registry where
  operations : List (String × OperationState)
  listeners : List (String × List Nat)
deriving Repr

/-- The empty registry (fresh host process). -/
def emptyRegistry : Registry := { operations := [], listeners := [] }

/-- Map.set: store a binding, shadowing any previous one. -/
def mapSet {α : Type} (m : List (String × α)) (k : String) (v : α) : List (String × α) :=
  (k, v) :: m.filter (fun kv => kv.1 ≠ k)

/-- updateOperationState from soundcloud-downloader.tsx: shallow-merge the
partial onto the stored (or default) state, store the result, and invoke
every currently registered listener for the id with the new full state.  The
second component lists those synchronous callback invocations in order. -/
def updateOperationState (reg : Registry) (operationId : String)
    (updates : PartialOperationState) : Registry × List (Nat × OperationState) :=
  let currentState := (reg.operations.lookup operationId).getD defaultOperationState
  let newState := applyPartial currentState updates
  let notifications := ((reg.listeners.lookup operationId).getD []).map (fun cb => (cb, newState))
  ({ reg with operations := mapSet reg.operations operationId newState }, notifications)

/-- subscribeToOperation from soundcloud-downloader.tsx: register the
callback in the id's listener set, then, if a state is already stored for
the id, invoke the callback with that snapshot before returning.  The second
component lists the states synchronously delivered to the new callback
before the unsubscribe handle is returned. -/
def subscribeToOperation (reg : Registry) (operationId : String) (callback : Nat) :
    Registry × List OperationState :=
  let ls := (reg.listeners.lookup operationId).getD []
  let ls2 := if ls.contains callback then ls else ls ++ [callback]
  let reg2 := { reg with listeners := mapSet reg.listeners operationId ls2 }
  match reg.operations.lookup operationId with
  | some currentState => (reg2, [currentState])
  | none => (reg2, [])

/-- Apply a sequence of partial updates to one operation id in order. -/
def applyUpdates (reg : Registry) (operationId : String)
    (us : List PartialOperationState) : Registry :=
  us.foldl (fun r u => (updateOperationState r operationId u).1) reg

/-! ## soundcloud-downloader.tsx: the close-handler of executeBackgroundDownload -/

/-- The partial state written by the close handler: on exit code 0 or with at
least one detected file, mark inactive and completed, force percentage 100
and the final elapsed time, and store the file list; otherwise mark inactive
with an error describing the exit code. -/
def closeHandlerUpdate (code : Int) (downloadedFiles : List String)
    (currentProgress : DownloadProgress) (finalElapsedTime : String) : PartialOperationState :=
  if code = 0 ∨ 0 < downloadedFiles.length then
    { isActive := some false
      isCompleted := some true
      progress := some { currentProgress with
                         percentage := some 100
                         elapsedTime := some finalElapsedTime }
      downloadedFiles := some downloadedFiles }
  else
    { isActive := some false
      error := some (some ("Download failed with exit code " ++ toString code)) }

/-! ## soundcloud-downloader.tsx: parseProgress

The three regexes of parseProgress are embedded as explicit matchers.  Each
regex is unanchored, so the top level tries a match at every start position
from the left (leftmost match, as in JS).  Greedy repetition with
backtracking is needed only at the [\d.]+ / \w+ boundary inside the size and
speed captures; everywhere else the character classes of adjacent pieces are
disjoint, so maximal munch agrees with the regex engine. -/

/-- All ways to split off a nonempty run of p-characters, longest first
(the order a greedy regex repetition tries them). -/
def splitsDesc (p : Char → Bool) (cs : List Char) : List (List Char × List Char) :=
  let n := (cs.takeWhile p).length
  (List.range n).map (fun i => (cs.take (n - i), cs.drop (n - i)))

/-- First success of f over a list of candidates. -/
def firstSome {α β : Type} (l : List α) (f : α → Option β) : Option β :=
  match l with
  | [] => none
  | a :: rest =>
    match f a with
    | some b => some b
    | none => firstSome rest f

/-- Match a literal string, returning the rest. -/
def stripLit (lit : List Char) (cs : List Char) : Option (List Char) :=
  if List.isPrefixOf lit cs then some (cs.drop lit.length) else none

/-- Match one or more characters of a class, maximal munch, returning the
run and the rest. -/
def run1 (p : Char → Bool) (cs : List Char) : Option (List Char × List Char) :=
  let r := cs.takeWhile p
  if r.isEmpty then none else some (r, cs.drop r.length)

/-- Match the regex piece [\d.]+\w+ with greedy backtracking at the boundary,
returning the matched text and the rest. -/
def matchNumUnit (cs : List Char) : Option (List Char × List Char) :=
  firstSome (splitsDesc isNumDot cs) (fun nr =>
    match run1 isWordChar nr.2 with
    | some ur => some (nr.1 ++ ur.1, ur.2)
    | none => none)

/-- Captures of the download-progress regex. -/
structure DownloadMatch where
  percentage : Rat
  total : String
  speed : String
  eta : Option String
deriving DecidableEq, Repr

/-- The optional trailing ETA group of the download-progress regex:
whitespace, literal ETA, whitespace, then the MM:SS capture. -/
def matchEtaAt (cs : List Char) : Option String :=
  match run1 isJsWhitespace cs with
  | none => none
  | some r6 =>
  match stripLit "ETA".toList r6.2 with
  | none => none
  | some cs2 =>
  match run1 isJsWhitespace cs2 with
  | none => none
  | some r7 =>
  match run1 isJsDigit r7.2 with
  | none => none
  | some e1 =>
  match stripLit [':'] e1.2 with
  | none => none
  | some cs3 =>
  match run1 isJsDigit cs3 with
  | none => none
  | some e2 => some (String.mk (e1.1 ++ [':'] ++ e2.1))

/-- Try the download-progress regex at the start of cs0: literal [download],
whitespace, the decimal percentage capture and %, "of", the size capture,
"at", the speed capture ending in /s, and the optional ETA group. -/
def matchDownloadAt (cs0 : List Char) : Option DownloadMatch :=
  match stripLit "[download]".toList cs0 with
  | none => none
  | some a1 =>
  match run1 isJsWhitespace a1 with
  | none => none
  | some r1 =>
  match run1 isJsDigit r1.2 with
  | none => none
  | some ip =>
  match stripLit ['.'] ip.2 with
  | none => none
  | some a2 =>
  match run1 isJsDigit a2 with
  | none => none
  | some fp =>
  match stripLit ['%'] fp.2 with
  | none => none
  | some a3 =>
  match run1 isJsWhitespace a3 with
  | none => none
  | some r2 =>
  match stripLit "of".toList r2.2 with
  | none => none
  | some a4 =>
  match run1 isJsWhitespace a4 with
  | none => none
  | some r3 =>
  match matchNumUnit r3.2 with
  | none => none
  | some total =>
  match run1 isJsWhitespace total.2 with
  | none => none
  | some r4 =>
  match stripLit "at".toList r4.2 with
  | none => none
  | some a5 =>
  match run1 isJsWhitespace a5 with
  | none => none
  | some r5 =>
  match matchNumUnit r5.2 with
  | none => none
  | some speed =>
  match stripLit "/s".toList speed.2 with
  | none => none
  | some a6 =>
    some { percentage := ratOfDecimal ip.1 fp.1
           total := String.mk total.1
           speed := String.mk (speed.1 ++ ['/', 's'])
           eta := matchEtaAt a6 }

/-- The shared suffix of the playlist-progress regex: the integer capture,
whitespace, literal of, whitespace, the second integer capture. -/
def matchItemOfAt (cs2 : List Char) : Option (Nat × Nat) :=
  match run1 isJsDigit cs2 with
  | none => none
  | some d1 =>
  match run1 isJsWhitespace d1.2 with
  | none => none
  | some r3 =>
  match stripLit "of".toList r3.2 with
  | none => none
  | some cs3 =>
  match run1 isJsWhitespace cs3 with
  | none => none
  | some r4 =>
  match run1 isJsDigit r4.2 with
  | none => none
  | some d2 => some (natOfDigits d1.1, natOfDigits d2.1)

/-- Try the playlist-progress regex at the start of cs0: literal [download],
whitespace, literal Downloading, whitespace, an optional "video" plus
whitespace (tried first, as the regex engine does), then the two integer
captures around "of". -/
def matchPlaylistAt (cs0 : List Char) : Option (Nat × Nat) :=
  match stripLit "[download]".toList cs0 with
  | none => none
  | some a1 =>
  match run1 isJsWhitespace a1 with
  | none => none
  | some r1 =>
  match stripLit "Downloading".toList r1.2 with
  | none => none
  | some a2 =>
  match run1 isJsWhitespace a2 with
  | none => none
  | some r2 =>
    match (match stripLit "video".toList r2.2 with
           | none => none
           | some a3 =>
             match run1 isJsWhitespace a3 with
             | none => none
             | some r3 => matchItemOfAt r3.2) with
    | some r => some r
    | none => matchItemOfAt r2.2

/-- Try the title-extraction regex at the start of cs0: literal [info],
whitespace, one or more non-colon characters (captured), a colon,
whitespace, then the literal "Downloading webpage" text. -/
def matchTitleAt (cs0 : List Char) : Option String :=
  match stripLit "[info]".toList cs0 with
  | none => none
  | some a1 =>
  match run1 isJsWhitespace a1 with
  | none => none
  | some r1 =>
  match run1 (fun c => c ≠ ':') r1.2 with
  | none => none
  | some cap =>
  match stripLit [':'] cap.2 with
  | none => none
  | some a2 =>
  match run1 isJsWhitespace a2 with
  | none => none
  | some r2 =>
  match stripLit "Downloading".toList r2.2 with
  | none => none
  | some a3 =>
  match run1 isJsWhitespace a3 with
  | none => none
  | some r3 =>
  match stripLit "webpage".toList r3.2 with
  | none => none
  | some _ => some (String.mk cap.1)

/-- Unanchored search: try the matcher at every start position, leftmost
match first. -/
def searchFrom {α : Type} (f : List Char → Option α) : List Char → Option α
  | [] => f []
  | c :: cs =>
    match f (c :: cs) with
    | some r => some r
    | none => searchFrom f cs

/-- parseProgress from soundcloud-downloader.tsx: try the download-progress
regex, then the playlist-progress regex, then the title regex; the first
match determines the sparse partial update; no match yields the empty
update.  The captured title is trimmed as in the source. -/
def parseProgress (line : String) : DownloadProgress :=
  match searchFrom matchDownloadAt line.toList with
  | some m =>
    { percentage := some m.percentage, total := some m.total,
      speed := some m.speed, eta := m.eta }
  | none =>
    match searchFrom matchPlaylistAt line.toList with
    | some r => { currentTrack := some r.1, totalTracks := some r.2 }
    | none =>
      match searchFrom matchTitleAt line.toList with
      | some t => { trackTitle := some (jsTrim t) }
      | none => {}

/-! ## Helper lemmas -/

/-- The error list of the argument loop is empty exactly when no argument
trips any of the three rejection checks. -/
theorem validateArgsLoop_errs_nil (args : List String) :
    (validateArgsLoop args).1 = [] ↔ args.any rejectsArg = false := by
  induction args with
  | nil => simp [validateArgsLoop]
  | cons a rest ih =>
    simp only [validateArgsLoop, List.any_cons]
    split_ifs with h1 h2 h3
    · simp [rejectsArg, h1]
    · simp [rejectsArg, h1, h2]
    · simp [rejectsArg, h1, h2, h3]
    · simp [rejectsArg, h1, h2, h3, ih]

/-- When no error is recorded, the loop's sanitized list is the pointwise
sanitization of the input list. -/
theorem validateArgsLoop_outs (args : List String) (h : (validateArgsLoop args).1 = []) :
    (validateArgsLoop args).2 = args.map sanitizeArg := by
  induction args with
  | nil => simp [validateArgsLoop]
  | cons a rest ih =>
    by_cases h1 : 2000 < a.length
    · simp [validateArgsLoop, h1] at h
    · by_cases h2 : hasDangerousPattern a = true
      · simp [validateArgsLoop, h1, h2] at h
      · by_cases h3 : (sanitizeArg a).length = 0 ∧ 0 < a.length
        · simp [validateArgsLoop, h1, h2, h3] at h
        · simp only [validateArgsLoop, if_neg h1, if_neg h2, if_neg h3] at h ⊢
          simp [List.map_cons, ih h]

/-- Looking up the key just stored by mapSet yields the stored value. -/
theorem lookup_mapSet_self {α : Type} (m : List (String × α)) (k : String) (v : α) :
    (mapSet m k v).lookup k = some v := by
  simp [mapSet, List.lookup]

/-- What updateOperationState stores for the updated id: the partial merged
onto the previous (or default) state. -/
theorem updateOperationState_lookup (reg : Registry) (id : String)
    (u : PartialOperationState) :
    ((updateOperationState reg id u).1).operations.lookup id =
      some (applyPartial ((reg.operations.lookup id).getD defaultOperationState) u) := by
  simp [updateOperationState, lookup_mapSet_self]

/-- Replaying a sequence of updates on an id that already stores a state
folds the merges over that state. -/
theorem applyUpdates_lookup (id : String) (us : List PartialOperationState) :
    ∀ (reg : Registry) (st : OperationState),
      reg.operations.lookup id = some st →
      (applyUpdates reg id us).operations.lookup id = some (us.foldl applyPartial st) := by
  induction us with
  | nil => intro reg st h; simpa [applyUpdates] using h
  | cons u rest ih =>
    intro reg st h
    have h2 := updateOperationState_lookup reg id u
    rw [h] at h2
    simp only [Option.getD_some] at h2
    have h3 := ih ((updateOperationState reg id u).1) (applyPartial st u) h2
    simpa [applyUpdates, List.foldl_cons] using h3

/-- Right-biased field choice distributes over getD. -/
theorem getD_overrideOpt {α : Type} (a b : Option α) (c : α) :
    (overrideOpt a b).getD c = b.getD (a.getD c) := by
  cases b <;> rfl

/-- Applying two partial updates in sequence equals applying their
caller-side merge once (for every pair, overlapping or not). -/
theorem applyPartial_applyPartial (st : OperationState) (p1 p2 : PartialOperationState) :
    applyPartial (applyPartial st p1) p2 = applyPartial st (mergePartial p1 p2) := by
  simp [applyPartial, mergePartial, getD_overrideOpt]

/-! ## Claim theorems -/

/-- C4: validateCommandArgs is all-or-nothing.  It returns isValid=false and
no sanitizedArgs list at all whenever any single argument is longer than
2000 characters, matches one of the fixed dangerous patterns (command
substitution, backtick substitution, chaining, separator, redirection), or
becomes empty after the control-character strip and trim of a nonempty
input; otherwise it returns isValid=true with the sanitized list. -/
theorem validateCommandArgs_all_or_nothing (args : List String) :
    (validateCommandArgs args).isValid = !(args.any rejectsArg) ∧
    (validateCommandArgs args).sanitizedArgs =
      (if args.any rejectsArg then none else some (args.map sanitizeArg)) := by
  have hiff := validateArgsLoop_errs_nil args
  cases hA : args.any rejectsArg with
  | false =>
    have hnil : (validateArgsLoop args).1 = [] := hiff.mpr hA
    refine ⟨?_, ?_⟩
    · simp [validateCommandArgs, hnil]
    · simp [validateCommandArgs, hnil, validateArgsLoop_outs args hnil]
  | true =>
    have hne : (validateArgsLoop args).1 ≠ [] := by
      intro hn
      rw [hiff.mp hn] at hA
      exact Bool.false_ne_true hA
    refine ⟨?_, ?_⟩
    · simp [validateCommandArgs, List.isEmpty_iff, hne]
    · simp [validateCommandArgs, List.isEmpty_iff, hne]

/-- C10: whenever validateCommandArgs succeeds, the sanitized list has the
same length as the input, in the same order, and its i-th element is the
i-th input with control characters removed and whitespace trimmed. -/
theorem validateCommandArgs_preserves_vector (args : List String)
    (h : (validateCommandArgs args).isValid = true) :
    ∃ l, (validateCommandArgs args).sanitizedArgs = some l ∧
      l.length = args.length ∧
      ∀ i : Nat, l[i]? = (args[i]?).map sanitizeArg := by
  have hnil : (validateArgsLoop args).1 = [] := by
    have : ((validateArgsLoop args).1).isEmpty = true := h
    exact List.isEmpty_iff.mp this
  refine ⟨args.map sanitizeArg, ?_, List.length_map _ _, ?_⟩
  · simp [validateCommandArgs, hnil, validateArgsLoop_outs args hnil]
  · intro i
    exact List.getElem?_map sanitizeArg args i

/-- C10 witness: a concrete two-argument batch passes validation and the
sanitized list is the pointwise strip-and-trim of the input. -/
theorem validateCommandArgs_preserves_vector_witness :
    (validateCommandArgs ["--newline", "  x  "]).isValid = true ∧
    ∃ l, (validateCommandArgs ["--newline", "  x  "]).sanitizedArgs = some l ∧
      l.length = (["--newline", "  x  "] : List String).length ∧
      ∀ i : Nat, l[i]? = ((["--newline", "  x  "] : List String)[i]?).map sanitizeArg :=
  ⟨rfl, validateCommandArgs_preserves_vector ["--newline", "  x  "] rfl⟩

/-- Filtering a list with the same predicate twice equals filtering once. -/
theorem filter_idem {α : Type} (p : α → Bool) (l : List α) :
    (l.filter p).filter p = l.filter p := by
  induction l with
  | nil => rfl
  | cons c cs ih =>
    by_cases h : p c = true
    · simp [List.filter_cons, h, ih]
    · simp [List.filter_cons, h, ih]

/-- C2: sanitizeForShell (sanitizeUrl in the source) is idempotent, but it
does NOT preserve percent-parenthesis placeholders: its character class
strips the parentheses, so the placeholder %(title)s comes out as %titles —
contradicting the claim and the source's own comment that the fix preserves
the downstream tool's template syntax. -/
theorem sanitizeUrl_idempotent_and_placeholder_stripped :
    (∀ s : String, sanitizeUrl (sanitizeUrl s) = sanitizeUrl s) ∧
    sanitizeUrl "%(title)s" = "%titles" := by
  refine ⟨?_, by decide⟩
  intro s
  show String.mk (((String.mk (s.toList.filter _)).toList).filter _) = _
  rw [show (String.mk (s.toList.filter (fun c => !isShellMeta c))).toList
        = s.toList.filter (fun c => !isShellMeta c) from rfl]
  rw [filter_idem]
  rfl

/-- C5: parseProgress does not recognize the collection-position line
"[download] Downloading item 5 of 67" — its regex only allows an optional
literal "video" between "Downloading" and the index, not "item", so the
line from the claim (and from the source's own comment above the regex)
produces the empty update; the same line without "item" does match. -/
theorem parseProgress_item_line_not_matched :
    parseProgress "[download] Downloading item 5 of 67" = ({} : DownloadProgress) ∧
    parseProgress "[download] Downloading video 5 of 67" =
      { currentTrack := some 5, totalTracks := some 67 } := by
  refine ⟨by decide, by decide⟩

/-- C1: the submission flow never applies the home-directory containment
check to the output path.  The path validation handleDownload actually runs
(validateCommandArgs) accepts the disallowed path /etc/evil unchanged, while
the security module's validateAndSanitizePath (with home /Users/user and
working directory /) rejects it — that function is never called on the
submission path.  Separately, no spawn occurs for this request, but only
because the built-in quality-preset arguments trip the same validator's
redirection pattern for every request, disallowed or allowed path alike. -/
theorem downloadPath_validation_gap :
    (validateCommandArgs ["/etc/evil"]).isValid = true ∧
    (validateCommandArgs ["/etc/evil"]).sanitizedArgs = some ["/etc/evil"] ∧
    validateAndSanitizePath "/Users/user" "/" "/etc/evil" =
      Except.error "Invalid path: Path must be within safe directories" ∧
    (validateCommandArgs
      (buildDownloadArgs "/etc/evil" "https://soundcloud.com/artist/track"
        false true QualityKey.high)).isValid = false ∧
    handleDownloadSpawns "https://soundcloud.com/artist/track" "/etc/evil" = false ∧
    handleDownloadSpawns "https://soundcloud.com/artist/track"
      "/Users/user/Downloads/SoundCloud" = false := by
  refine ⟨by decide, by decide, by rfl, by decide, by decide, by decide⟩

/-- C3: on process exit, when the exit code is 0 or at least one file was
detected, the close handler marks the operation inactive and completed with
percentage 100 and the elapsed time finalized; otherwise (nonzero exit code
and no files) it marks it inactive with an error naming the exit code and
leaves isCompleted false. -/
theorem closeHandler_outcome (code : Int) (files : List String)
    (cur : DownloadProgress) (fe : String) (st : OperationState)
    (hc : st.isCompleted = false) :
    ((code = 0 ∨ 0 < files.length) →
      (applyPartial st (closeHandlerUpdate code files cur fe)).isActive = false ∧
      (applyPartial st (closeHandlerUpdate code files cur fe)).isCompleted = true ∧
      (applyPartial st (closeHandlerUpdate code files cur fe)).progress.elapsedTime = some fe ∧
      (applyPartial st (closeHandlerUpdate code files cur fe)).progress.percentage = some 100 ∧
      (applyPartial st (closeHandlerUpdate code files cur fe)).downloadedFiles = files) ∧
    ((code ≠ 0 ∧ files.length = 0) →
      (applyPartial st (closeHandlerUpdate code files cur fe)).isActive = false ∧
      (applyPartial st (closeHandlerUpdate code files cur fe)).error =
        some ("Download failed with exit code " ++ toString code) ∧
      (applyPartial st (closeHandlerUpdate code files cur fe)).isCompleted = false) := by
  constructor
  · intro h
    simp [closeHandlerUpdate, applyPartial, if_pos h]
  · intro h
    have hneg : ¬(code = 0 ∨ 0 < files.length) := by
      rintro (h0 | hl)
      · exact h.1 h0
      · rw [h.2] at hl; exact Nat.lt_irrefl 0 hl
    simp [closeHandlerUpdate, applyPartial, if_neg hneg, hc]

/-- C3 witness: exit code 1 with no files on a fresh state gives the failure
outcome, and exit code 0 gives the completed outcome at the same inputs. -/
theorem closeHandler_outcome_witness :
    defaultOperationState.isCompleted = false ∧
    (((1 : Int) = 0 ∨ 0 < ([] : List String).length) →
      (applyPartial defaultOperationState (closeHandlerUpdate 1 [] {} "0:07")).isActive = false ∧
      (applyPartial defaultOperationState (closeHandlerUpdate 1 [] {} "0:07")).isCompleted = true ∧
      (applyPartial defaultOperationState (closeHandlerUpdate 1 [] {} "0:07")).progress.elapsedTime = some "0:07" ∧
      (applyPartial defaultOperationState (closeHandlerUpdate 1 [] {} "0:07")).progress.percentage = some 100 ∧
      (applyPartial defaultOperationState (closeHandlerUpdate 1 [] {} "0:07")).downloadedFiles = []) ∧
    (((1 : Int) ≠ 0 ∧ ([] : List String).length = 0) →
      (applyPartial defaultOperationState (closeHandlerUpdate 1 [] {} "0:07")).isActive = false ∧
      (applyPartial defaultOperationState (closeHandlerUpdate 1 [] {} "0:07")).error =
        some ("Download failed with exit code " ++ toString (1 : Int)) ∧
      (applyPartial defaultOperationState (closeHandlerUpdate 1 [] {} "0:07")).isCompleted = false) :=
  ⟨rfl, (closeHandler_outcome 1 [] {} "0:07" defaultOperationState rfl).1,
        (closeHandler_outcome 1 [] {} "0:07" defaultOperationState rfl).2⟩

/-- C6: subscribing to an operation id that already stores a state delivers
that snapshot synchronously, before the unsubscribe handle is returned; in
particular a subscriber registered after a nonempty sequence of updates
immediately observes the fold of all those updates over the default state. -/
theorem subscribe_delivers_snapshot :
    (∀ (reg : Registry) (id : String) (cb : Nat) (st : OperationState),
        reg.operations.lookup id = some st →
        (subscribeToOperation reg id cb).2 = [st]) ∧
    (∀ (id : String) (cb : Nat) (u : PartialOperationState)
        (us : List PartialOperationState),
        (subscribeToOperation (applyUpdates emptyRegistry id (u :: us)) id cb).2 =
          [(u :: us).foldl applyPartial defaultOperationState]) := by
  have hsub : ∀ (reg : Registry) (id : String) (cb : Nat) (st : OperationState),
      reg.operations.lookup id = some st →
      (subscribeToOperation reg id cb).2 = [st] := by
    intro reg id cb st h
    simp [subscribeToOperation, h]
  refine ⟨hsub, ?_⟩
  intro id cb u us
  have h0 : ((updateOperationState emptyRegistry id u).1).operations.lookup id =
      some (applyPartial defaultOperationState u) := by
    simpa [emptyRegistry] using updateOperationState_lookup emptyRegistry id u
  have h1 := applyUpdates_lookup id us ((updateOperationState emptyRegistry id u).1)
    (applyPartial defaultOperationState u) h0
  have h2 : (applyUpdates emptyRegistry id (u :: us)).operations.lookup id =
      some ((u :: us).foldl applyPartial defaultOperationState) := by
    simpa [applyUpdates, List.foldl_cons] using h1
  exact hsub _ id cb _ h2

/-- C6 witness: a registry already storing a state for "op" delivers it on
subscribe, and subscribing after one concrete update delivers the merged
state. -/
theorem subscribe_delivers_snapshot_witness :
    ((Registry.mk [("op", defaultOperationState)] []).operations.lookup "op" =
      some defaultOperationState) ∧
    (subscribeToOperation (Registry.mk [("op", defaultOperationState)] []) "op" 0).2 =
      [defaultOperationState] ∧
    (subscribeToOperation
        (applyUpdates emptyRegistry "op" [{ isActive := some true }]) "op" 7).2 =
      [[({ isActive := some true } : PartialOperationState)].foldl applyPartial
        defaultOperationState] :=
  ⟨rfl,
   subscribe_delivers_snapshot.1 (Registry.mk [("op", defaultOperationState)] [])
     "op" 0 defaultOperationState rfl,
   subscribe_delivers_snapshot.2 "op" 7 { isActive := some true } []⟩

/-- C9: for partial updates with disjoint top-level keys, updating an id
with p1 then p2 stores the same final state as a single update with the
caller-side merge of p1 and p2; and an update on an id with no stored state
merges onto the default zero-value state. -/
theorem update_shallow_merge (reg : Registry) (id : String)
    (p1 p2 : PartialOperationState) (hd : disjointKeys p1 p2 = true) :
    ((updateOperationState (updateOperationState reg id p1).1 id p2).1).operations.lookup id =
      ((updateOperationState reg id (mergePartial p1 p2)).1).operations.lookup id ∧
    (reg.operations.lookup id = none →
      ((updateOperationState reg id p1).1).operations.lookup id =
        some (applyPartial defaultOperationState p1)) := by
  constructor
  · simp [updateOperationState_lookup, applyPartial_applyPartial]
  · intro h
    simp [updateOperationState_lookup, h]

/-- C9 witness: two concrete single-key updates on a fresh id compose into
their caller-side merge. -/
theorem update_shallow_merge_witness :
    disjointKeys { isActive := some true } { isCompleted := some true } = true ∧
    ((updateOperationState (updateOperationState emptyRegistry "op"
        { isActive := some true }).1 "op" { isCompleted := some true }).1).operations.lookup "op" =
      ((updateOperationState emptyRegistry "op"
        (mergePartial { isActive := some true } { isCompleted := some true })).1).operations.lookup "op" ∧
    (emptyRegistry.operations.lookup "op" = none →
      ((updateOperationState emptyRegistry "op" { isActive := some true }).1).operations.lookup "op" =
        some (applyPartial defaultOperationState { isActive := some true })) :=
  ⟨rfl,
   (update_shallow_merge emptyRegistry "op" { isActive := some true }
     { isCompleted := some true } rfl).1,
   (update_shallow_merge emptyRegistry "op" { isActive := some true }
     { isCompleted := some true } rfl).2⟩

/-- C7 counterexample: the URL validation actually run at download
submission (isValidSoundCloudUrl) rejects the allow-listed mobile host
m.soundcloud.com, even though the security module's schema accepts it, so
the claim that the submission check accepts every hostname of the five-entry
allow-list is false. -/
theorem mobile_host_rejected_at_submission :
    isValidSoundCloudUrl "https://m.soundcloud.com/artist/track" = false ∧
    soundCloudUrlSchemaCheck "https://m.soundcloud.com/artist/track" = true ∧
    "m.soundcloud.com" ∈ validDomains :=
  ⟨by decide, by decide, by decide⟩

/-- C7 amended: for every URL that parses, the submission-time check
(isValidSoundCloudUrl) accepts exactly the hostnames soundcloud.com and
www.soundcloud.com, while the security module's SoundCloudUrlSchema check
accepts exactly the five allow-listed hostnames including the mobile and
short-link variants; URLs that fail to parse are rejected by both. -/
theorem url_hostname_allowlists (url : String) (p : URLParts)
    (h : parseURL url = some p) :
    (isValidSoundCloudUrl url = true ↔
      (p.hostname = "soundcloud.com" ∨ p.hostname = "www.soundcloud.com")) ∧
    (soundCloudUrlSchemaCheck url = true ↔ p.hostname ∈ validDomains) := by
  constructor
  · simp [isValidSoundCloudUrl, h]
  · simp [soundCloudUrlSchemaCheck, h]

/-- C7 witness: a canonical-host URL parses and both checks accept it. -/
theorem url_hostname_allowlists_witness :
    parseURL "https://soundcloud.com/artist/track" =
      some { scheme := "https", hostname := "soundcloud.com",
             pathname := "/artist/track" } ∧
    ((isValidSoundCloudUrl "https://soundcloud.com/artist/track" = true ↔
        (({ scheme := "https", hostname := "soundcloud.com",
            pathname := "/artist/track" } : URLParts).hostname = "soundcloud.com" ∨
         ({ scheme := "https", hostname := "soundcloud.com",
            pathname := "/artist/track" } : URLParts).hostname = "www.soundcloud.com")) ∧
     (soundCloudUrlSchemaCheck "https://soundcloud.com/artist/track" = true ↔
        ({ scheme := "https", hostname := "soundcloud.com",
           pathname := "/artist/track" } : URLParts).hostname ∈ validDomains)) :=
  ⟨by decide,
   url_hostname_allowlists "https://soundcloud.com/artist/track"
     { scheme := "https", hostname := "soundcloud.com", pathname := "/artist/track" }
     (by decide)⟩

/-- C8 counterexample: the URL https://soundcloud.com/discover is on an
allow-listed host and its path has exactly one non-empty segment, yet
detection classifies it as discover (valid=false), not as a user profile,
because the discover-prefix check runs before segment counting. -/
theorem single_segment_discover_counterexample :
    detectSoundCloudUrlType "https://soundcloud.com/discover" = ("discover", false) ∧
    soundCloudUrlSchemaCheck "https://soundcloud.com/discover" = true ∧
    (parseURL "https://soundcloud.com/discover").map
      (fun p => ((splitStr '/' p.pathname).filter (fun seg => 0 < seg.length)).length) =
      some 1 ∧
    (detectSoundCloudUrlType "https://soundcloud.com/discover").1 ≠ "user" :=
  ⟨by decide, by decide, by decide, by decide⟩

/-- C8 amended: a URL whose path has exactly one non-empty segment is never
classified as a track; it is classified as a user profile with valid=false
unless one of the checks that run earlier fires (the shortened host, the
discover/explore/search prefixes, or a collection marker in the path). -/
theorem single_segment_classification (url : String) (p : URLParts)
    (h : parseURL url = some p)
    (hseg : ((splitStr '/' p.pathname).filter (fun seg => 0 < seg.length)).length = 1) :
    (detectSoundCloudUrlType url).1 ≠ "track" ∧
    (p.hostname ≠ "on.soundcloud.com" →
      strStartsWith p.pathname "/discover" = false →
      strStartsWith p.pathname "/explore" = false →
      strStartsWith p.pathname "/search" = false →
      containsSub p.pathname "/sets/" = false →
      containsSub p.pathname "/albums/" = false →
      detectSoundCloudUrlType url = ("user", false)) := by
  constructor
  · simp only [detectSoundCloudUrlType, h, hseg]
    split_ifs <;> simp_all
  · intro hh h1 h2 h3 h4 h5
    simp only [detectSoundCloudUrlType, h, hseg]
    rw [if_neg hh]
    rw [if_neg (by simp [h1, h2])]
    rw [if_neg (by simp [h3])]
    rw [if_neg (by simp [h4])]
    rw [if_neg (by simp [h5])]
    norm_num

/-- C8 witness: a one-segment artist URL on the canonical host is classified
as a user profile and not downloadable. -/
theorem single_segment_classification_witness :
    parseURL "https://soundcloud.com/artist" =
      some { scheme := "https", hostname := "soundcloud.com", pathname := "/artist" } ∧
    ((splitStr '/'
        ({ scheme := "https", hostname := "soundcloud.com",
           pathname := "/artist" } : URLParts).pathname).filter
        (fun seg => 0 < seg.length)).length = 1 ∧
    (detectSoundCloudUrlType "https://soundcloud.com/artist").1 ≠ "track" ∧
    (({ scheme := "https", hostname := "soundcloud.com",
        pathname := "/artist" } : URLParts).hostname ≠ "on.soundcloud.com" →
      strStartsWith "/artist" "/discover" = false →
      strStartsWith "/artist" "/explore" = false →
      strStartsWith "/artist" "/search" = false →
      containsSub "/artist" "/sets/" = false →
      containsSub "/artist" "/albums/" = false →
      detectSoundCloudUrlType "https://soundcloud.com/artist" = ("user", false)) :=
  ⟨by decide, by decide,
   (single_segment_classification "https://soundcloud.com/artist"
     { scheme := "https", hostname := "soundcloud.com", pathname := "/artist" }
     (by decide) (by decide)).1,
   (single_segment_classification "https://soundcloud.com/artist"
     { scheme := "https", hostname := "soundcloud.com", pathname := "/artist" }
     (by decide) (by decide)).2⟩

end SCDL
